import Mathlib

/-!
Verification development for the peak-ai-agent-stack gateway
(Node.js backend: token service, auth middleware, rate limiting,
session bridge, downstream proxying).

The JavaScript source is shallowly embedded: each JS module becomes a set
of Lean definitions, JWTs are modelled as structured records carrying the
payload together with the signing secret and algorithm, thrown errors
become `Except`, and the in-memory `Map`s become association lists.
-/

set_option autoImplicit false

namespace Peak

/-- Payload of a JSON Web Token as used by this repository.  Fields that a
given signer does not set are `none` (JS `undefined`). -/
structure Payload where
  clientId  : Option String := none
  service   : Option String := none
  type : Option String := none
  scopes    : List String := []
  sessionId : Option String := none
  iss       : Option String := none
  aud       : Option String := none
  exp       : Option Nat := none
  deriving Repr, DecidableEq

/-- Model of a signed JWT: the payload plus the secret and algorithm that
produced the signature.  Signature verification against a candidate secret
succeeds exactly when the secrets coincide (collision-freeness of HMAC is
assumed away, as usual for a symbolic model). -/
structure Token where
  payload   : Payload
  sigSecret : String
  sigAlg    : String
  deriving Repr, DecidableEq

/-- Options accepted by the model of `jwt.sign`. -/
structure SignOpts where
  algorithm : String := "HS256"
  expiresIn : Option Nat := none
  issuer    : Option String := none
  audience  : Option String := none
  deriving Repr, DecidableEq

/-- Options accepted by the model of `jwt.verify`; `algorithms := none`
models a call that does not pin the algorithm list. -/
structure VerifyOpts where
  algorithms : Option (List String) := none
  issuer     : Option String := none
  audience   : Option String := none
  deriving Repr, DecidableEq

/-- Model of `jwt.sign`: stamps issuer, audience and expiry into the payload
and records the signing secret and algorithm. -/
def jwtSign (p : Payload) (secret : String) (o : SignOpts) (now : Nat) : Token :=
  { payload := { p with
      iss := o.issuer
      aud := o.audience
      exp := o.expiresIn.map (fun d => now + d) }
    sigSecret := secret
    sigAlg := o.algorithm }

/-- Check of the algorithms list in `jwt.verify`: no list means no
restriction. -/
def algOk (algs : Option (List String)) (a : String) : Bool :=
  match algs with
  | none => true
  | some l => l.contains a

/-- Check of a required string claim (issuer or audience) in `jwt.verify`:
when the option is set the token must carry exactly that value. -/
def claimOk (required : Option String) (actual : Option String) : Bool :=
  match required with
  | none => true
  | some r => actual == some r

/-- Expiry check in `jwt.verify`: a token with an `exp` claim is valid
strictly before `exp`. -/
def expOk (e : Option Nat) (now : Nat) : Bool :=
  match e with
  | none => true
  | some x => decide (now < x)

/-- Model of `jwt.verify`: returns the payload when the signature, the
algorithm restriction, issuer, audience and expiry all check out, and
`none` where the library would throw. -/
def jwtVerify (t : Token) (secret : String) (o : VerifyOpts) (now : Nat) :
    Option Payload :=
  if t.sigSecret == secret && algOk o.algorithms t.sigAlg
      && claimOk o.issuer t.payload.iss && claimOk o.audience t.payload.aud
      && expOk t.payload.exp now
  then some t.payload
  else none

/-! ### Client registry and token service (src/unnamed/part_001) -/

/-- Per-client entry of `config.auth.clients`. -/
structure ClientConfig where
  apiKey : String
  secret : String
  scopes : List String := []
  accessTokenExpiry : Nat
  refreshTokenExpiry : Nat
  deriving Repr, DecidableEq

/-- The `config.auth` object: the client registry plus the fixed
access/refresh token settings. -/
structure AuthConfig where
  clients : List (String × ClientConfig)
  accessAlgorithm : String
  accessIssuer : String
  accessAudience : String
  refreshAlgorithm : String
  deriving Repr, DecidableEq

/-- The `validApiKeys` reverse map built by a JS object-spread reduce over
`config.auth.clients`: a later entry with the same apiKey overrides an
earlier one, which the left fold reproduces. -/
def validApiKeys (cfg : AuthConfig) (apiKey : String) : Option String :=
  cfg.clients.foldl
    (fun acc p => if p.2.apiKey == apiKey then some p.1 else acc) none

/-- Indexing `config.auth.clients[clientId]`; JS object keys are unique so
the first match is the only match. -/
def clientLookup (cfg : AuthConfig) (clientId : String) : Option ClientConfig :=
  (cfg.clients.find? (fun p => p.1 == clientId)).map (fun p => p.2)

/-- Result object of `generateToken`. -/
structure TokenPair where
  accessToken : Token
  refreshToken : Token
  expiresIn : Nat
  deriving Repr, DecidableEq

/-- Embedding of `generateToken` (src/unnamed/part_001 lines 71-112).
The unknown-key branch throws, which becomes `Except.error`.  The inner
lookup of the resolved clientId cannot fail for a registry built from a JS
object, so the dead branch surfaces the JS TypeError it would raise. -/
def generateToken (cfg : AuthConfig) (now : Nat) (apiKey : String) :
    Except String TokenPair :=
  match validApiKeys cfg apiKey with
  | none => .error "Invalid API key"
  | some clientId =>
    match clientLookup cfg clientId with
    | none => .error "TypeError: clientConfig is undefined"
    | some cc =>
      let accessToken := jwtSign
        { clientId := some clientId
          type := some "access"
          scopes := cc.scopes }
        cc.secret
        { algorithm := cfg.accessAlgorithm
          expiresIn := some cc.accessTokenExpiry
          issuer := some cfg.accessIssuer
          audience := some cfg.accessAudience } now
      let refreshToken := jwtSign
        { clientId := some clientId
          type := some "refresh" }
        cc.secret
        { algorithm := cfg.refreshAlgorithm
          expiresIn := some cc.refreshTokenExpiry } now
      .ok { accessToken := accessToken
            refreshToken := refreshToken
            expiresIn := cc.accessTokenExpiry }

/-- Embedding of `verifyToken` (src/unnamed/part_001 lines 114-153):
untrusted decode to pick the per-client secret, then `jwt.verify` with the
algorithm pinned by the expected type and with issuer/audience options
passed only on the access path, then the token-type equality check.  Every
failure, including a thrown verification error, yields `none`. -/
def verifyToken (cfg : AuthConfig) (now : Nat) (t : Token)
    (expectedType : String) : Option Payload :=
  match t.payload.clientId with
  | none => none
  | some cid =>
    match clientLookup cfg cid with
    | none => none
    | some cc =>
      let opts : VerifyOpts :=
        if expectedType == "access" then
          { algorithms := some [cfg.accessAlgorithm]
            issuer := some cfg.accessIssuer
            audience := some cfg.accessAudience }
        else
          { algorithms := some [cfg.refreshAlgorithm] }
      match jwtVerify t cc.secret opts now with
      | none => none
      | some verified =>
        if verified.type == some expectedType then some verified
        else none

/-! ### Rin service configuration (src/backend/node/config/index.js) and
auth middleware (src/backend/node/middleware/rinAuth.js) -/

/-- The `config.rin` object: the service API key, the JWT secret and the
fixed auth settings (`HS256`, issuer `rin-service`, audience
`rin-client`). -/
structure RinConfig where
  apiKey : String
  secret : String
  accessTokenExpiry : Nat
  algorithm : String := "HS256"
  issuer : String := "rin-service"
  audience : String := "rin-client"
  deriving Repr, DecidableEq

/-- Body of a JSON error response, as the flat association list of fields
passed to `res.json`. -/
structure JsonResponse where
  statusCode : Nat
  body : List (String × String)
  deriving Repr, DecidableEq

/-- Embedding of `authenticateRinToken` (src/backend/node/middleware/
rinAuth.js lines 4-40): a missing or non-Bearer Authorization header gives
401, otherwise `jwt.verify` runs against `config.rin.secret` checking
issuer and audience but with no pinned algorithm list; a thrown
verification error becomes the 401 response, success yields the decoded
payload (`req.user`). -/
def authenticateRinToken (rc : RinConfig) (now : Nat) (auth : Option Token) :
    Except JsonResponse Payload :=
  match auth with
  | none =>
    .error { statusCode := 401
             body := [("status", "error"), ("message", "No token provided")] }
  | some t =>
    match jwtVerify t rc.secret
        { issuer := some rc.issuer, audience := some rc.audience } now with
    | none =>
      .error { statusCode := 401
               body := [("status", "error"), ("message", "Invalid token")] }
    | some p => .ok p

/-! ### Rate limiting (src/unnamed/part_003)

The per-endpoint policies and the keying by `req.ip` are taken from the
source.  The window dynamics live inside the `express-rate-limit`
dependency, which is not part of this repository. -/

/-- Policy of one `rateLimit` instance: its `windowMs`, `max` and denial
message. -/
structure LimiterPolicy where
  windowMs : Nat
  maxRequests : Nat
  denyMessage : String
  deriving Repr, DecidableEq

/-- The `rateLimiters` table (src/unnamed/part_003 lines 4-61). -/
def rateLimiters (endpoint : String) : Option LimiterPolicy :=
  if endpoint == "auth" then
    some { windowMs := 5 * 60 * 1000
           maxRequests := 20
           denyMessage := "Too many auth requests, please try again later." }
  else if endpoint == "session" then
    some { windowMs := 5 * 60 * 1000
           maxRequests := 20
           denyMessage := "Too many session requests, please try again later." }
  else if endpoint == "chat" then
    some { windowMs := 60 * 1000
           maxRequests := 30
           denyMessage := "Too many chat requests, please try again later." }
  else if endpoint == "history" then
    some { windowMs := 60 * 1000
           maxRequests := 30
           denyMessage := "Too many history requests, please try again later." }
  else none

/-- The `getRateLimiter` factory (src/unnamed/part_003 lines 64-66):
unknown endpoint names fall back to the chat limiter. -/
def getRateLimiter (endpoint : String) : LimiterPolicy :=
  (rateLimiters endpoint).getD
    { windowMs := 60 * 1000
      maxRequests := 30
      denyMessage := "Too many chat requests, please try again later." }

/-- Per-key counters of one limiter instance. -/
def getCount (l : List (String × Nat)) (k : String) : Nat :=
  ((l.find? (fun p => p.1 == k)).map (fun p => p.2)).getD 0

/-- Update-or-append on the counter association list. -/
def setCount (l : List (String × Nat)) (k : String) (v : Nat) :
    List (String × Nat) :=
  match l with
  | [] => [(k, v)]
  | p :: rest => if p.1 == k then (k, v) :: rest else p :: setCount rest k v

/-- Mutable state of one limiter instance: the start of the current fixed
window and the hit counters. -/
structure WindowState where
  windowStart : Nat
  counts : List (String × Nat)
  deriving Repr, DecidableEq

/-- Modelled from the spec: the fixed-window admission check of the
`express-rate-limit` memory store, which is a dependency and not part of
this repository.  The count for every key resets to zero the instant the
window boundary is crossed (the window start advances by whole multiples
of `windowMs`); a request increments the counter for its key and is
admitted exactly when the incremented count is still within
`maxRequests`. -/
def limitCheck (pol : LimiterPolicy) (st : WindowState) (key : String)
    (now : Nat) : Bool × WindowState :=
  let st' :=
    if st.windowStart + pol.windowMs ≤ now then
      { windowStart :=
          st.windowStart + pol.windowMs * ((now - st.windowStart) / pol.windowMs)
        counts := [] }
    else st
  let c := getCount st'.counts key + 1
  (decide (c ≤ pol.maxRequests),
   { st' with counts := setCount st'.counts key c })

/-- Folding a sequence of request times for one key through the limiter,
collecting the admission verdicts. -/
def limitSeq (pol : LimiterPolicy) (key : String) (st : WindowState) :
    List Nat → List Bool × WindowState
  | [] => ([], st)
  | t :: ts =>
    let r := limitCheck pol st key t
    let rest := limitSeq pol key r.2 ts
    (r.1 :: rest.1, rest.2)

/-! ### Session store and chat services
(src/backend/node/middleware/rinChatService.js) -/

/-- A chat history entry as pushed by `addToHistory`; the ISO timestamp is
modelled as a natural number. -/
structure Message where
  role : String
  content : String
  timestamp : Nat
  deriving Repr, DecidableEq

/-- Value stored in the `sessions` map: creation time and the ordered
history.  Note there is no owner field of any kind. -/
structure Session where
  created : Nat
  history : List Message
  deriving Repr, DecidableEq

/-- The in-memory `sessions : Map` of a service instance, as an
association list in insertion order. -/
structure AgentState where
  sessions : List (String × Session)
  deriving Repr, DecidableEq

/-- Embedding of `sessions.has(sessionId)`. -/
def sessionsHas (st : AgentState) (sid : String) : Bool :=
  st.sessions.any (fun p => p.1 == sid)

/-- Embedding of `sessions.get(sessionId)`. -/
def sessionsGet (st : AgentState) (sid : String) : Option Session :=
  (st.sessions.find? (fun p => p.1 == sid)).map (fun p => p.2)

/-- List worker for `sessionsSet`. -/
def sessionsSetList (l : List (String × Session)) (sid : String) (s : Session) :
    List (String × Session) :=
  match l with
  | [] => [(sid, s)]
  | p :: rest =>
    if p.1 == sid then (sid, s) :: rest else p :: sessionsSetList rest sid s

/-- Embedding of `sessions.set(sessionId, s)`: replaces an existing entry in place,
otherwise appends (JS Map insertion-order semantics). -/
def sessionsSet (st : AgentState) (sid : String) (s : Session) : AgentState :=
  { sessions := sessionsSetList st.sessions sid s }

/-- Embedding of `RinAgentService.getHistory` (rinChatService.js lines
202-207): throws `Invalid session` for an unknown id, else returns the
stored history.  The function receives no caller identity at all. -/
def getHistory (st : AgentState) (sid : String) :
    Except String (List Message) :=
  match sessionsGet st sid with
  | none => .error "Invalid session"
  | some s => .ok s.history

/-- Embedding of `addToHistory` (rinChatService.js lines 209-219): throws
for an unknown session, else pushes a message with the current
timestamp. -/
def addToHistory (st : AgentState) (sid : String) (msg : String)
    (role : String) (now : Nat) : Except String AgentState :=
  match sessionsGet st sid with
  | none => .error "Invalid session"
  | some s =>
    .ok (sessionsSet st sid
      { s with history := s.history ++ [{ role := role
                                          content := msg
                                          timestamp := now }] })

/-- Embedding of `RinAgentService.sendMessage` (rinChatService.js lines
173-200).  The downstream `axios.post` outcome is the `ds` parameter:
`.error` models a thrown/timed-out call, `.ok r` a response whose
`data.response` is `r`.  Both history appends happen strictly after a
successful downstream call; a thrown error is rethrown with the state it
left behind. -/
def sendMessage (st : AgentState) (ds : Except String String)
    (sid : String) (msg : String) (now : Nat) :
    Except String String × AgentState :=
  match ds with
  | .error e => (.error e, st)
  | .ok r =>
    match addToHistory st sid msg "user" now with
    | .error e => (.error e, st)
    | .ok st1 =>
      match addToHistory st1 sid r "assistant" now with
      | .error e => (.error e, st1)
      | .ok st2 => (.ok r, st2)

/-- Embedding of `RinChatService.sendMessage` (rinChatService.js lines
44-67): same shape, but the session existence check happens before the
downstream call. -/
def chatServiceSendMessage (st : AgentState) (ds : Except String String)
    (sid : String) (msg : String) (now : Nat) :
    Except String String × AgentState :=
  if sessionsHas st sid then
    match ds with
    | .error e => (.error e, st)
    | .ok r =>
      match addToHistory st sid msg "user" now with
      | .error e => (.error e, st)
      | .ok st1 =>
        match addToHistory st1 sid r "assistant" now with
        | .error e => (.error e, st1)
        | .ok st2 => (.ok r, st2)
  else (.error "Invalid session", st)

/-! ### Route pipelines (src/backend/node/routes/rinRoutes.js)

Each protected route is declared as
`router.post(path, authenticateRinToken, getRateLimiter(class), handler)`;
express runs the middlewares strictly in that order.  The runners below
execute the chain and also record which stages ran, so ordering claims can
be stated. -/

/-- Stages of a middleware chain, in execution order. -/
inductive MwEvent where
  | authVerify
  | rateCheck
  | handlerRun
  deriving Repr, DecidableEq

/-- An inbound HTTP request as the routes see it: the parsed Bearer token
(`none` when the Authorization header is missing or malformed), the raw
token string that `authenticateRinToken` stores in `req.token`, the client
address used as the limiter key, and the JSON body as a flat field
list. -/
structure RinRequest where
  authorization : Option Token := none
  rawToken : String := ""
  ip : String := "default"
  body : List (String × String) := []
  deriving Repr, DecidableEq

/-- JS object field access `body.x` on a flat JSON body. -/
def jsonLookup (body : List (String × String)) (k : String) : Option String :=
  (body.find? (fun p => p.1 == k)).map (fun p => p.2)

/-- JS falsiness of an optional string: `undefined` and the empty string
are falsy. -/
def jsFalsy (o : Option String) : Bool :=
  match o with
  | none => true
  | some s => s == ""

/-- JS `a || b` on an optional string against a default. -/
def jsOr (a : Option String) (b : String) : String :=
  match a with
  | none => b
  | some s => if s == "" then b else s

/-- Optional JSON field: `res.json` drops keys whose value is
`undefined`. -/
def optField (k : String) (v : Option String) : List (String × String) :=
  match v with
  | none => []
  | some s => [(k, s)]

/-- The 429 response an `express-rate-limit` instance sends, carrying the
per-endpoint message object from src/unnamed/part_003. -/
def tooManyResponse (pol : LimiterPolicy) : JsonResponse :=
  { statusCode := 429
    body := [("status", "error"), ("message", pol.denyMessage)] }

/-- Error shape of a failed `axios` call: `error.response?.status`,
`error.response?.data?.detail` and `error.message`. -/
structure DownstreamError where
  status : Option Nat := none
  detail : Option String := none
  message : String := ""
  deriving Repr, DecidableEq

/-- Record of the outbound request the chat route issues to the Python
service: the rewritten path, the `X-API-Key` header value, and the JSON
body it constructs. -/
structure OutboundChat where
  path : String
  xApiKey : String
  body : List (String × String)
  deriving Repr, DecidableEq

/-- Embedding of the `POST /session/init` pipeline (rinRoutes.js lines
13-61).  `ds` is the outcome of the `axios.post` to the Python service;
the handler catches a downstream error and sends the identical success
response, so the caller-facing result never depends on `ds`.  The
sessionId in the response is `req.user.sessionId`, taken from the verified
JWT. -/
def runSessionInit (rc : RinConfig) (rl : WindowState) (now : Nat)
    (req : RinRequest) (ds : Except DownstreamError Unit) :
    JsonResponse × List MwEvent × WindowState :=
  match authenticateRinToken rc now req.authorization with
  | .error resp => (resp, [MwEvent.authVerify], rl)
  | .ok user =>
    let pol := getRateLimiter "session"
    let r := limitCheck pol rl req.ip now
    if r.1 then
      let resp : JsonResponse :=
        match ds with
        | .ok _ =>
          { statusCode := 200
            body := [("status", "success")] ++
              optField "sessionId" user.sessionId ++
              [("message", "Session initialized")] }
        | .error _ =>
          { statusCode := 200
            body := [("status", "success")] ++
              optField "sessionId" user.sessionId ++
              [("message", "Session initialized")] }
      (resp, [MwEvent.authVerify, MwEvent.rateCheck, MwEvent.handlerRun], r.2)
    else
      (tooManyResponse pol, [MwEvent.authVerify, MwEvent.rateCheck], r.2)

/-- The body the chat route sends downstream (rinRoutes.js lines 79-92): a
fresh object with snake-cased keys and the inbound bearer token copied
into `auth_token`. -/
def chatForwardBody (sid : String) (msg : String) (rawToken : String) :
    List (String × String) :=
  [("session_id", sid), ("message", msg), ("auth_token", rawToken)]

/-- Embedding of the `POST /chat` pipeline (rinRoutes.js lines 64-107).
`pyKey` is `config.pythonService.apiKey`; `ds` maps the outbound body to
the downstream outcome, whose `.ok` value is the response `data` object.
The fourth component records the outbound request, `none` when no
downstream call was made. -/
def runChat (rc : RinConfig) (pyKey : String) (rl : WindowState) (now : Nat)
    (req : RinRequest)
    (ds : List (String × String) → Except DownstreamError (List (String × String))) :
    JsonResponse × List MwEvent × WindowState × Option OutboundChat :=
  match authenticateRinToken rc now req.authorization with
  | .error resp => (resp, [MwEvent.authVerify], rl, none)
  | .ok _user =>
    let pol := getRateLimiter "chat"
    let r := limitCheck pol rl req.ip now
    if r.1 then
      let sid := jsonLookup req.body "sessionId"
      let msg := jsonLookup req.body "message"
      if jsFalsy sid || jsFalsy msg then
        ({ statusCode := 400
           body := [("status", "error"),
                    ("message", "Missing sessionId or message")] },
         [MwEvent.authVerify, MwEvent.rateCheck, MwEvent.handlerRun], r.2, none)
      else
        let outBody := chatForwardBody (sid.getD "") (msg.getD "") req.rawToken
        let outbound : OutboundChat :=
          { path := "/api/chat", xApiKey := pyKey, body := outBody }
        match ds outBody with
        | .ok data =>
          ({ statusCode := 200
             body := [("status", "success")] ++
               optField "response" (jsonLookup data "response") },
           [MwEvent.authVerify, MwEvent.rateCheck, MwEvent.handlerRun], r.2,
           some outbound)
        | .error e =>
          ({ statusCode := 500
             body := [("status", "error"),
                      ("message", "Failed to process message"),
                      ("details", jsOr e.detail e.message)] },
           [MwEvent.authVerify, MwEvent.rateCheck, MwEvent.handlerRun], r.2,
           some outbound)
    else
      (tooManyResponse pol, [MwEvent.authVerify, MwEvent.rateCheck], r.2, none)

/-- Response of the history route; the history field is typed rather than
flattened because it carries an array of message objects. -/
structure HistoryResponse where
  statusCode : Nat
  status : String
  history : Option (List Message) := none
  message : Option String := none
  deriving Repr, DecidableEq

/-- Embedding of the `POST /history/:sessionId` pipeline (rinRoutes.js
lines 110-136) with the history source instantiated by the session store of this
repository, `RinAgentService.getHistory` (rinChatService.js lines
202-207).  After `authenticateRinToken` succeeds the handler is invoked
with only the path parameter `sessionId`; the verified caller payload is
never consulted again, and the store records no owner. -/
def runHistory (rc : RinConfig) (rl : WindowState) (now : Nat)
    (req : RinRequest) (sid : String) (st : AgentState) :
    HistoryResponse × List MwEvent × WindowState :=
  match authenticateRinToken rc now req.authorization with
  | .error resp =>
    ({ statusCode := resp.statusCode
       status := "error"
       message := jsonLookup resp.body "message" }, [MwEvent.authVerify], rl)
  | .ok _user =>
    let pol := getRateLimiter "history"
    let r := limitCheck pol rl req.ip now
    if r.1 then
      match getHistory st sid with
      | .ok h =>
        ({ statusCode := 200
           status := "success"
           history := some h },
         [MwEvent.authVerify, MwEvent.rateCheck, MwEvent.handlerRun], r.2)
      | .error _ =>
        ({ statusCode := 500
           status := "error"
           message := some "Failed to fetch history" },
         [MwEvent.authVerify, MwEvent.rateCheck, MwEvent.handlerRun], r.2)
    else
      ({ statusCode := 429
         status := "error"
         message := some pol.denyMessage },
       [MwEvent.authVerify, MwEvent.rateCheck], r.2)

/-- Response of the mounted `POST /auth` route. -/
structure AuthRouteResponse where
  statusCode : Nat
  status : String
  accessToken : Option Token := none
  sessionId : Option String := none
  deriving Repr, DecidableEq

/-- Embedding of the mounted `POST /auth` handler (rinRoutes.js lines
139-170), the only token-issuing endpoint that server.js mounts.  It
draws a fresh sessionId (the `sessionId` parameter models
`crypto.randomUUID()`), signs an access token with `config.rin.secret`,
and answers 200 success.  The request — in particular any apiKey in its
body — is never read: the parameter is unused exactly as `req` is unused
in the source handler. -/
def runAuthRoute (rc : RinConfig) (now : Nat) (sessionId : String)
    (_req : RinRequest) : AuthRouteResponse :=
  let token := jwtSign
    { service := some "rin-chat"
      type := some "access"
      sessionId := some sessionId }
    rc.secret
    { algorithm := "HS256"  -- no algorithm option in the source: jsonwebtoken default
      expiresIn := some rc.accessTokenExpiry
      issuer := some rc.issuer
      audience := some rc.audience } now
  { statusCode := 200
    status := "success"
    accessToken := some token
    sessionId := some sessionId }

/-! ### Concrete fixtures used by witnesses and counterexamples -/

/-- A registered client entry, shaped like the `rin-chat` client. -/
def sampleClient : ClientConfig :=
  { apiKey := "key1"
    secret := "sec1"
    scopes := ["chat"]
    accessTokenExpiry := 3600
    refreshTokenExpiry := 86400 }

/-- A one-client registry with the fixed token settings from the config. -/
def sampleCfg : AuthConfig :=
  { clients := [("rin-chat", sampleClient)]
    accessAlgorithm := "HS256"
    accessIssuer := "rin-service"
    accessAudience := "rin-client"
    refreshAlgorithm := "HS256" }

/-- A concrete `config.rin`. -/
def sampleRin : RinConfig :=
  { apiKey := "rk", secret := "topsecret", accessTokenExpiry := 3600 }

/-- The token pair `generateToken sampleCfg 0 "key1"` produces, written
out. -/
def samplePair : TokenPair :=
  { accessToken :=
      { payload :=
          { clientId := some "rin-chat"
            type := some "access"
            scopes := ["chat"]
            iss := some "rin-service"
            aud := some "rin-client"
            exp := some 3600 }
        sigSecret := "sec1"
        sigAlg := "HS256" }
    refreshToken :=
      { payload :=
          { clientId := some "rin-chat"
            type := some "refresh"
            exp := some 86400 }
        sigSecret := "sec1"
        sigAlg := "HS256" }
    expiresIn := 3600 }

/-- A token signed with the registered client secret and refresh
algorithm, carrying `type = refresh` but a wrong issuer claim. -/
def evilIssuerToken : Token :=
  { payload :=
      { clientId := some "rin-chat"
        type := some "refresh"
        iss := some "evil-issuer"
        exp := some 100 }
    sigSecret := "sec1"
    sigAlg := "HS256" }

/-- A valid Rin access token bound to session `sA`. -/
def tokenAlice : Token :=
  { payload :=
      { service := some "rin-chat"
        type := some "access"
        sessionId := some "sA"
        iss := some "rin-service"
        aud := some "rin-client"
        exp := some 3600 }
    sigSecret := "topsecret"
    sigAlg := "HS256" }

/-- A second valid Rin access token, bound to a different session `sB`,
hence a different authenticated identity. -/
def tokenBob : Token :=
  { payload :=
      { service := some "rin-chat"
        type := some "access"
        sessionId := some "sB"
        iss := some "rin-service"
        aud := some "rin-client"
        exp := some 3600 }
    sigSecret := "topsecret"
    sigAlg := "HS256" }

/-- A stored message of session `sA`. -/
def helloMsg : Message := { role := "user", content := "hello", timestamp := 1 }

/-- A session store holding one session `sA` with one message. -/
def sampleStore : AgentState :=
  { sessions := [("sA", { created := 0, history := [helloMsg] })] }

/-- A limiter whose current window is empty. -/
def freshWindow : WindowState := { windowStart := 0, counts := [] }

/-- A limiter state in which ip `1.2.3.4` has exhausted the 20-request
session budget of the current window. -/
def fullWindow : WindowState :=
  { windowStart := 0, counts := [("1.2.3.4", 20)] }

/-- A request authenticated as the `sA` identity. -/
def reqAlice : RinRequest :=
  { authorization := some tokenAlice, rawToken := "rawA", ip := "1.2.3.4" }

/-- A request authenticated as the distinct `sB` identity. -/
def reqBob : RinRequest :=
  { authorization := some tokenBob, rawToken := "rawB", ip := "1.2.3.4" }

/-- A well-formed chat request from the `sA` identity. -/
def reqChat : RinRequest :=
  { authorization := some tokenAlice
    rawToken := "rawA"
    ip := "1.2.3.4"
    body := [("sessionId", "s1"), ("message", "hi")] }

/-! ### Helper lemmas -/

/-- A left fold that never matches leaves its accumulator unchanged. -/
theorem foldl_apiKey_none (k : String) (l : List (String × ClientConfig))
    (acc : Option String) (h : ∀ p ∈ l, p.2.apiKey ≠ k) :
    l.foldl (fun acc p => if p.2.apiKey == k then some p.1 else acc) acc
      = acc := by
  induction l generalizing acc with
  | nil => rfl
  | cons p rest ih =>
    have hp : p.2.apiKey ≠ k := h p (List.mem_cons_self p rest)
    have hrest : ∀ q ∈ rest, q.2.apiKey ≠ k := fun q hq =>
      h q (List.mem_cons_of_mem p hq)
    rw [List.foldl_cons, if_neg (by simp [hp])]
    exact ih acc hrest

/-- Setting a counter makes the subsequent read return the written
value. -/
theorem getCount_setCount (l : List (String × Nat)) (k : String) (v : Nat) :
    getCount (setCount l k v) k = v := by
  induction l with
  | nil => simp [setCount, getCount]
  | cons p rest ih =>
    by_cases h : p.1 = k
    · simp [setCount, getCount, h]
    · have hb : (p.1 == k) = false := beq_eq_false_iff_ne.mpr h
      unfold getCount at ih ⊢
      rw [setCount, if_neg (by simp [h]), List.find?_cons_of_neg _ (by simp [hb])]
      exact ih

/-- Inside the current window, a request does not reset anything: it
increments the counter for its key and is admitted exactly when the new
count stays within the budget. -/
theorem limitCheck_in_window (pol : LimiterPolicy) (st : WindowState)
    (key : String) (t : Nat) (h : t < st.windowStart + pol.windowMs) :
    limitCheck pol st key t =
      (decide (getCount st.counts key + 1 ≤ pol.maxRequests),
       { st with counts := setCount st.counts key (getCount st.counts key + 1) }) := by
  unfold limitCheck
  rw [if_neg (by omega)]

/-- Running a sequence of same-key requests all inside the current window:
the i-th request (0-based) is admitted exactly when the starting count
plus i is still below the budget, the window start never moves, and the
final count is the starting count plus the number of requests. -/
theorem limitSeq_in_window (pol : LimiterPolicy) (key : String)
    (times : List Nat) :
    ∀ st : WindowState, (∀ t ∈ times, t < st.windowStart + pol.windowMs) →
    (limitSeq pol key st times).1 =
      (List.range times.length).map
        (fun i => decide (getCount st.counts key + i + 1 ≤ pol.maxRequests))
    ∧ (limitSeq pol key st times).2.windowStart = st.windowStart
    ∧ getCount (limitSeq pol key st times).2.counts key
        = getCount st.counts key + times.length := by
  induction times with
  | nil => intro st _; simp [limitSeq]
  | cons t ts ih =>
    intro st h
    have ht : t < st.windowStart + pol.windowMs := h t (List.mem_cons_self t ts)
    have hts : ∀ u ∈ ts, u < st.windowStart + pol.windowMs := fun u hu =>
      h u (List.mem_cons_of_mem t hu)
    have hstep := limitCheck_in_window pol st key t ht
    have hcount := getCount_setCount st.counts key (getCount st.counts key + 1)
    obtain ⟨ih1, ih2, ih3⟩ :=
      ih { st with counts := setCount st.counts key (getCount st.counts key + 1) }
        hts
    dsimp only at ih1 ih2 ih3
    rw [hcount] at ih1 ih3
    refine ⟨?_, ?_, ?_⟩
    · rw [limitSeq, hstep]
      dsimp only
      rw [ih1]
      simp only [List.length_cons, List.range_succ_eq_map, List.map_cons,
        List.map_map]
      congr 1
      congr 1
      funext i
      simp only [Function.comp_apply]
      rw [decide_eq_decide]
      omega
    · rw [limitSeq, hstep]
      dsimp only
      rw [ih2]
    · rw [limitSeq, hstep]
      dsimp only
      rw [ih3]
      simp only [List.length_cons]
      omega

/-- Crossing the window boundary: the window start advances by whole
windows, every counter resets, and the arriving request is counted as the
first of the fresh window; the new window contains `now`. -/
theorem limitCheck_reset (pol : LimiterPolicy) (st : WindowState)
    (key : String) (now : Nat) (hW : 0 < pol.windowMs)
    (h : st.windowStart + pol.windowMs ≤ now) :
    limitCheck pol st key now =
      (decide (1 ≤ pol.maxRequests),
       { windowStart :=
           st.windowStart + pol.windowMs * ((now - st.windowStart) / pol.windowMs)
         counts := [(key, 1)] })
    ∧ st.windowStart + pol.windowMs * ((now - st.windowStart) / pol.windowMs) ≤ now
    ∧ now < st.windowStart
        + pol.windowMs * ((now - st.windowStart) / pol.windowMs) + pol.windowMs := by
  have hdm := Nat.div_add_mod (now - st.windowStart) pol.windowMs
  have hm := Nat.mod_lt (now - st.windowStart) hW
  refine ⟨?_, by omega, by omega⟩
  unfold limitCheck
  rw [if_pos h]
  rfl

/-- A verification in which the signature matches and every requested
check passes returns the payload. -/
theorem jwtVerify_ok (t : Token) (secret : String) (o : VerifyOpts)
    (now : Nat) (h1 : t.sigSecret = secret)
    (h2 : algOk o.algorithms t.sigAlg = true)
    (h3 : claimOk o.issuer t.payload.iss = true)
    (h4 : claimOk o.audience t.payload.aud = true)
    (h5 : expOk t.payload.exp now = true) :
    jwtVerify t secret o now = some t.payload := by
  unfold jwtVerify
  rw [if_pos]
  subst h1
  simp [h2, h3, h4, h5]

/-- A one-element pinned algorithm list accepts exactly that algorithm. -/
theorem algOk_singleton (a s : String) (h : algOk (some [a]) s = true) :
    s = a := by
  simp only [algOk, List.contains, List.elem] at h
  cases hb : (s == a)
  · rw [hb] at h
    simp at h
  · exact eq_of_beq hb

/-- A requested issuer or audience check forces the token claim. -/
theorem claimOk_some (r : String) (o : Option String)
    (h : claimOk (some r) o = true) : o = some r := by
  simpa [claimOk] using h

/-- Inversion of a successful `jwtVerify`: every requested check must have
passed and the result is the token payload. -/
theorem jwtVerify_inv (t : Token) (secret : String) (o : VerifyOpts)
    (now : Nat) (p : Payload) (h : jwtVerify t secret o now = some p) :
    p = t.payload ∧ t.sigSecret = secret
    ∧ algOk o.algorithms t.sigAlg = true
    ∧ claimOk o.issuer t.payload.iss = true
    ∧ claimOk o.audience t.payload.aud = true
    ∧ expOk t.payload.exp now = true := by
  unfold jwtVerify at h
  split at h
  · injection h with hp
    subst hp
    next hcond =>
    simp only [Bool.and_eq_true, beq_iff_eq] at hcond
    obtain ⟨⟨⟨⟨hsec, halg⟩, hiss⟩, haud⟩, hexp⟩ := hcond
    exact ⟨rfl, hsec, halg, hiss, haud, hexp⟩
  · exact absurd h (by simp)

/-! ### Claim theorems -/

/-- C10: when the downstream call inside `sendMessage` fails, the error
propagates and the session history is left completely unchanged — neither
the inbound user message nor an assistant message is appended, in both
`RinAgentService.sendMessage` and `RinChatService.sendMessage`, because
the history appends happen only after a successful downstream call. -/
theorem chat_turn_atomic_on_failure :
    ∀ (st : AgentState) (sid msg : String) (now : Nat) (e : String),
      sendMessage st (Except.error e) sid msg now = (Except.error e, st)
      ∧ (chatServiceSendMessage st (Except.error e) sid msg now).2 = st
      ∧ ∃ err, (chatServiceSendMessage st (Except.error e) sid msg now).1
          = Except.error err := by
  intro st sid msg now e
  refine ⟨rfl, ?_, ?_⟩
  · unfold chatServiceSendMessage
    split
    · rfl
    · rfl
  · unfold chatServiceSendMessage
    split
    · exact ⟨e, rfl⟩
    · exact ⟨"Invalid session", rfl⟩

/-- C3 counterexample: a request whose body carries an API key registered
to no client — neither in the client registry nor equal to the configured
Rin service key — is still answered by the mounted `POST /auth` route
with 200 success and a signed access token that the auth middleware
accepts, because the handler never reads the request at all.  This
refutes the claim that for every unregistered key the token-issuing
operation fails with InvalidCredential and no token is returned. -/
theorem auth_route_issues_token_without_key_check :
    (∀ p ∈ sampleCfg.clients, p.2.apiKey ≠ "totally-unregistered")
    ∧ sampleRin.apiKey ≠ "totally-unregistered"
    ∧ (runAuthRoute sampleRin 0 "sNew"
        { body := [("apiKey", "totally-unregistered")] }).status = "success"
    ∧ (runAuthRoute sampleRin 0 "sNew"
        { body := [("apiKey", "totally-unregistered")] }).statusCode = 200
    ∧ authenticateRinToken sampleRin 5
        (runAuthRoute sampleRin 0 "sNew"
          { body := [("apiKey", "totally-unregistered")] }).accessToken
        = Except.ok
            { service := some "rin-chat"
              type := some "access"
              sessionId := some "sNew"
              iss := some "rin-service"
              aud := some "rin-client"
              exp := some 3600 } := by
  exact ⟨by decide, by decide, rfl, rfl, rfl⟩

/-- C3 amended: the token-manager layer behaves as claimed — for an API
key registered to no client, `generateToken` fails with the
Invalid-API-key error and no token pair is ever produced — but the
mounted `POST /auth` route consults no registry at all: for every
request, whatever its body carries, it answers 200 success with a
freshly signed access token, so an unregistered key (or no key) still
obtains a token from the deployed issuing endpoint. -/
theorem unregistered_key_no_token (cfg : AuthConfig) (now : Nat)
    (apiKey : String) (h : ∀ p ∈ cfg.clients, p.2.apiKey ≠ apiKey) :
    (generateToken cfg now apiKey = Except.error "Invalid API key"
     ∧ ∀ pair, generateToken cfg now apiKey ≠ Except.ok pair)
    ∧ ∀ (rc : RinConfig) (now2 : Nat) (sid : String) (req : RinRequest),
        (runAuthRoute rc now2 sid req).status = "success"
        ∧ (runAuthRoute rc now2 sid req).statusCode = 200
        ∧ (runAuthRoute rc now2 sid req).accessToken ≠ none := by
  have hres : validApiKeys cfg apiKey = none :=
    foldl_apiKey_none apiKey cfg.clients none h
  refine ⟨⟨?_, ?_⟩, ?_⟩
  · unfold generateToken
    rw [hres]
  · intro pair hcontra
    unfold generateToken at hcontra
    rw [hres] at hcontra
    exact Except.noConfusion hcontra
  · intro rc now2 sid req
    exact ⟨rfl, rfl, Option.some_ne_none _⟩

/-- Witness for the amended C3 at a concrete unregistered key: the
registry-backed issue fails while the mounted route still hands out a
token. -/
theorem unregistered_key_no_token_witness :
    generateToken sampleCfg 0 "wrong-key" = Except.error "Invalid API key"
    ∧ (runAuthRoute sampleRin 0 "sNew"
        { body := [("apiKey", "wrong-key")] }).status = "success" :=
  ⟨(unregistered_key_no_token sampleCfg 0 "wrong-key" (by decide)).1.1,
   ((unregistered_key_no_token sampleCfg 0 "wrong-key" (by decide)).2 sampleRin 0
     "sNew" { body := [("apiKey", "wrong-key")] }).1⟩

/-- C7: the caller-facing result of session initialization never depends
on the downstream outcome, and on an authenticated, admitted request whose
token carries a sessionId the route answers 200 success with that
sessionId even when the downstream call failed. -/
theorem session_init_soft_fail :
    (∀ (rc : RinConfig) (rl : WindowState) (now : Nat) (req : RinRequest)
        (ds1 ds2 : Except DownstreamError Unit),
      runSessionInit rc rl now req ds1 = runSessionInit rc rl now req ds2)
    ∧ (∀ (rc : RinConfig) (rl : WindowState) (now : Nat) (req : RinRequest)
        (u : Payload) (e : DownstreamError) (sid : String),
      authenticateRinToken rc now req.authorization = Except.ok u →
      u.sessionId = some sid →
      (limitCheck (getRateLimiter "session") rl req.ip now).1 = true →
      (runSessionInit rc rl now req (Except.error e)).1 =
        { statusCode := 200
          body := [("status", "success"), ("sessionId", sid),
                   ("message", "Session initialized")] }) := by
  constructor
  · intro rc rl now req ds1 ds2
    unfold runSessionInit
    cases authenticateRinToken rc now req.authorization with
    | error resp => rfl
    | ok user =>
      dsimp only
      split
      · cases ds1 <;> cases ds2 <;> rfl
      · rfl
  · intro rc rl now req u e sid hauth hsid hallow
    unfold runSessionInit
    rw [hauth]
    dsimp only
    rw [if_pos hallow, hsid]
    rfl

/-- Witness for C7: a concrete authenticated session-init request whose
downstream call times out still gets the 200 success response with its
sessionId. -/
theorem session_init_soft_fail_witness :
    (runSessionInit sampleRin freshWindow 5 reqAlice
        (Except.error { status := some 500, message := "timeout" })).1 =
      { statusCode := 200
        body := [("status", "success"), ("sessionId", "sA"),
                 ("message", "Session initialized")] } :=
  session_init_soft_fail.2 sampleRin freshWindow 5 reqAlice
    tokenAlice.payload { status := some 500, message := "timeout" } "sA"
    rfl rfl rfl

/-- C5 counterexample: a concrete request that the session rate limiter
denies (429) has nevertheless gone through token verification first — the
execution trace is authVerify before rateCheck, refuting the claim that a
rate-limit denial short-circuits before any authentication work. -/
theorem rate_limited_request_still_authenticates :
    (runSessionInit sampleRin fullWindow 5 reqAlice (Except.ok ())).1.statusCode
      = 429
    ∧ (runSessionInit sampleRin fullWindow 5 reqAlice (Except.ok ())).2.1 =
        [MwEvent.authVerify, MwEvent.rateCheck]
    ∧ MwEvent.authVerify ∈
        (runSessionInit sampleRin fullWindow 5 reqAlice (Except.ok ())).2.1 := by
  decide

/-- C5 amended: on the session, chat and history routes the
authentication middleware always runs first; the rate limiter is
consulted only afterwards, so a rate-limited request has already paid the
token-verification cost. -/
theorem auth_runs_before_rate_limit (rc : RinConfig) (rl : WindowState)
    (now : Nat) (req : RinRequest) (ds : Except DownstreamError Unit)
    (pyKey : String)
    (dsc : List (String × String) → Except DownstreamError (List (String × String)))
    (sid : String) (st : AgentState) :
    (runSessionInit rc rl now req ds).2.1.head? = some MwEvent.authVerify
    ∧ (runChat rc pyKey rl now req dsc).2.1.head? = some MwEvent.authVerify
    ∧ (runHistory rc rl now req sid st).2.1.head? = some MwEvent.authVerify := by
  refine ⟨?_, ?_, ?_⟩
  · unfold runSessionInit
    cases authenticateRinToken rc now req.authorization with
    | error resp => rfl
    | ok user =>
      dsimp only
      split
      · cases ds <;> rfl
      · rfl
  · unfold runChat
    cases authenticateRinToken rc now req.authorization with
    | error resp => rfl
    | ok user =>
      dsimp only
      split
      · split
        · rfl
        · split <;> rfl
      · rfl
  · unfold runHistory
    cases authenticateRinToken rc now req.authorization with
    | error resp => rfl
    | ok user =>
      dsimp only
      split
      · split <;> rfl
      · rfl

/-- C4 counterexample: two different authenticated identities (tokens
bound to sessions sA and sB) both receive the full message history of
session sA from the history route; since they are distinct, at least one
of them is not the identity that created the session, refuting the claim
that history is exposed only to the owning identity. -/
theorem history_returned_to_non_owner :
    (runHistory sampleRin freshWindow 5 reqAlice "sA" sampleStore).1.history
      = some [helloMsg]
    ∧ (runHistory sampleRin freshWindow 5 reqBob "sA" sampleStore).1.history
      = some [helloMsg]
    ∧ tokenAlice.payload ≠ tokenBob.payload := by
  decide

/-- C4 amended: the history route performs no ownership check — sessions
store no owner and the handler never consults the verified caller payload
— so its outcome is identical for any two successfully authenticated
callers from the same address. -/
theorem history_independent_of_caller (rc : RinConfig) (rl : WindowState)
    (now : Nat) (r1 r2 : RinRequest) (sid : String) (st : AgentState)
    (u1 u2 : Payload)
    (h1 : authenticateRinToken rc now r1.authorization = Except.ok u1)
    (h2 : authenticateRinToken rc now r2.authorization = Except.ok u2)
    (hip : r1.ip = r2.ip) :
    runHistory rc rl now r1 sid st = runHistory rc rl now r2 sid st := by
  unfold runHistory
  rw [h1, h2, hip]

/-- Witness for the amended C4 at the two concrete distinct identities. -/
theorem history_independent_of_caller_witness :
    runHistory sampleRin freshWindow 5 reqAlice "sA" sampleStore =
      runHistory sampleRin freshWindow 5 reqBob "sA" sampleStore :=
  history_independent_of_caller sampleRin freshWindow 5 reqAlice reqBob "sA"
    sampleStore tokenAlice.payload tokenBob.payload rfl rfl rfl

/-- C1: for a registered API key, issuing a token pair and then verifying
the returned access token with expected type `access` succeeds, and the
resulting claims carry the client identifier of the key and token type
`access`. -/
theorem issue_then_verify_access (cfg : AuthConfig) (now : Nat)
    (apiKey cid : String) (cc : ClientConfig) (pair : TokenPair)
    (hresolve : validApiKeys cfg apiKey = some cid)
    (hclient : clientLookup cfg cid = some cc)
    (hexp : 0 < cc.accessTokenExpiry)
    (hgen : generateToken cfg now apiKey = Except.ok pair) :
    verifyToken cfg now pair.accessToken "access"
      = some pair.accessToken.payload
    ∧ pair.accessToken.payload.clientId = some cid
    ∧ pair.accessToken.payload.type = some "access" := by
  unfold generateToken at hgen
  rw [hresolve] at hgen
  dsimp only at hgen
  rw [hclient] at hgen
  dsimp only at hgen
  injection hgen with hpair
  subst hpair
  refine ⟨?_, rfl, rfl⟩
  unfold verifyToken
  dsimp only [jwtSign]
  rw [hclient]
  dsimp only
  rw [if_pos (show ("access" == "access") = true from rfl)]
  simp only [Option.map_some']
  have hv := jwtVerify_ok
    { payload :=
        { clientId := some cid
          type := some "access"
          scopes := cc.scopes
          iss := some cfg.accessIssuer
          aud := some cfg.accessAudience
          exp := some (now + cc.accessTokenExpiry) }
      sigSecret := cc.secret
      sigAlg := cfg.accessAlgorithm }
    cc.secret
    { algorithms := some [cfg.accessAlgorithm]
      issuer := some cfg.accessIssuer
      audience := some cfg.accessAudience }
    now rfl (by simp [algOk, List.contains, List.elem])
    (by simp [claimOk]) (by simp [claimOk])
    (by simp [expOk]; omega)
  rw [hv]
  simp

/-- Witness for C1 at the concrete one-client registry. -/
theorem issue_then_verify_access_witness :
    verifyToken sampleCfg 0 samplePair.accessToken "access"
      = some samplePair.accessToken.payload
    ∧ samplePair.accessToken.payload.clientId = some "rin-chat"
    ∧ samplePair.accessToken.payload.type = some "access" :=
  issue_then_verify_access sampleCfg 0 "key1" "rin-chat" sampleClient
    samplePair rfl rfl (by decide) rfl

/-- C2 counterexample: a token signed with the registered client secret
whose issuer claim is `evil-issuer` — not the configured issuer — is
nevertheless accepted by `verifyToken` with expected type `refresh`,
because the issuer/audience options are passed to `jwt.verify` only on the
access path.  This refutes the claim that verification checks issuer and
audience for every expected type. -/
theorem refresh_verify_skips_issuer :
    verifyToken sampleCfg 0 evilIssuerToken "refresh"
      = some evilIssuerToken.payload
    ∧ evilIssuerToken.payload.iss ≠ some sampleCfg.accessIssuer := by
  decide

/-- C2 amended: a successful verification implies the payload is the
token payload, the token type equals the expected type, the signing
algorithm is the one pinned for that expected type, the signature was
made with the registered client secret selected by the decoded clientId,
and the token is unexpired — but issuer and audience are guaranteed only
when the expected type is `access`; moreover both tokens of an issued
pair are rejected when checked with the swapped expected type, and all
failures are the `none` value of a total function rather than an
exception. -/
theorem verify_checks_amended :
    (∀ (cfg : AuthConfig) (now : Nat) (t : Token) (e : String) (p : Payload),
      verifyToken cfg now t e = some p →
      p = t.payload
      ∧ p.type = some e
      ∧ t.sigAlg =
          (if e == "access" then cfg.accessAlgorithm else cfg.refreshAlgorithm)
      ∧ (e = "access" →
          t.payload.iss = some cfg.accessIssuer
          ∧ t.payload.aud = some cfg.accessAudience)
      ∧ (∃ cid cc, t.payload.clientId = some cid
          ∧ clientLookup cfg cid = some cc ∧ t.sigSecret = cc.secret)
      ∧ ∀ x, t.payload.exp = some x → now < x)
    ∧ (∀ (cfg : AuthConfig) (now1 now2 : Nat) (apiKey : String)
        (pair : TokenPair),
      generateToken cfg now2 apiKey = Except.ok pair →
      verifyToken cfg now1 pair.accessToken "refresh" = none
      ∧ verifyToken cfg now1 pair.refreshToken "access" = none) := by
  constructor
  · intro cfg now t e p h
    unfold verifyToken at h
    cases hcid : t.payload.clientId with
    | none =>
      rw [hcid] at h
      simp at h
    | some cid =>
      rw [hcid] at h
      dsimp only at h
      cases hcc : clientLookup cfg cid with
      | none =>
        rw [hcc] at h
        simp at h
      | some cc =>
        rw [hcc] at h
        dsimp only at h
        by_cases he : (e == "access") = true
        · rw [if_pos he] at h
          split at h
          · simp at h
          · next v heq =>
            split at h
            · next ht =>
              injection h with hp
              obtain ⟨hpay, hsec, halg, hiss, haud, hex⟩ :=
                jwtVerify_inv _ _ _ _ _ heq
              refine ⟨by rw [← hp, hpay], ?_, ?_, ?_, ⟨cid, cc, rfl, hcc, hsec⟩, ?_⟩
              · rw [← hp]
                exact eq_of_beq ht
              · rw [if_pos he]
                exact algOk_singleton _ _ halg
              · intro _
                exact ⟨claimOk_some _ _ hiss, claimOk_some _ _ haud⟩
              · intro x hx
                rw [hx] at hex
                unfold expOk at hex
                exact of_decide_eq_true hex
            · simp at h
        · rw [if_neg he] at h
          split at h
          · simp at h
          · next v heq =>
            split at h
            · next ht =>
              injection h with hp
              obtain ⟨hpay, hsec, halg, _, _, hex⟩ :=
                jwtVerify_inv _ _ _ _ _ heq
              refine ⟨by rw [← hp, hpay], ?_, ?_, ?_, ⟨cid, cc, rfl, hcc, hsec⟩, ?_⟩
              · rw [← hp]
                exact eq_of_beq ht
              · rw [if_neg he]
                exact algOk_singleton _ _ halg
              · intro heq2
                subst heq2
                exact absurd (by decide) he
              · intro x hx
                rw [hx] at hex
                unfold expOk at hex
                exact of_decide_eq_true hex
            · simp at h
  · intro cfg now1 now2 apiKey pair hgen
    unfold generateToken at hgen
    cases hres : validApiKeys cfg apiKey with
    | none =>
      rw [hres] at hgen
      simp at hgen
    | some cid =>
      rw [hres] at hgen
      dsimp only at hgen
      cases hcc : clientLookup cfg cid with
      | none =>
        rw [hcc] at hgen
        simp at hgen
      | some cc =>
        rw [hcc] at hgen
        dsimp only at hgen
        injection hgen with hpair
        subst hpair
        constructor
        · unfold verifyToken
          dsimp only [jwtSign]
          rw [hcc]
          dsimp only
          rw [if_neg (show ¬(("refresh" == "access") = true) from by decide)]
          split
          · rfl
          · next v heq =>
            obtain ⟨hpay, _, _, _, _, _⟩ := jwtVerify_inv _ _ _ _ _ heq
            subst hpay
            rw [if_neg (by simp)]
        · unfold verifyToken
          dsimp only [jwtSign]
          rw [hcc]
          dsimp only
          rw [if_pos (show ("access" == "access") = true from rfl)]
          split
          · rfl
          · next v heq =>
            obtain ⟨_, _, _, hiss, _, _⟩ := jwtVerify_inv _ _ _ _ _ heq
            simp [claimOk] at hiss

/-- Witness for the amended C2: the concrete issued access token is
rejected when checked with expected type `refresh`. -/
theorem verify_checks_amended_witness :
    verifyToken sampleCfg 5 samplePair.accessToken "refresh" = none
    ∧ verifyToken sampleCfg 5 samplePair.refreshToken "access" = none :=
  verify_checks_amended.2 sampleCfg 5 0 "key1" samplePair rfl

/-- C6: the limiter policies are exactly auth/session at 300000 ms and 20
requests and chat/history at 60000 ms and 30 requests; within one fixed
window the first `maxRequests` same-key requests are admitted and every
further one — in particular the (N+1)-th — is denied; and a request past
the window boundary resets the count to zero, after which up to
`maxRequests` requests are admitted again in the new window. -/
theorem rate_limit_policy_fixed_window :
    ((getRateLimiter "auth").windowMs = 300000
     ∧ (getRateLimiter "auth").maxRequests = 20
     ∧ (getRateLimiter "session").windowMs = 300000
     ∧ (getRateLimiter "session").maxRequests = 20
     ∧ (getRateLimiter "chat").windowMs = 60000
     ∧ (getRateLimiter "chat").maxRequests = 30
     ∧ (getRateLimiter "history").windowMs = 60000
     ∧ (getRateLimiter "history").maxRequests = 30)
    ∧ (∀ (pol : LimiterPolicy) (key : String) (t0 : Nat) (times : List Nat),
        (∀ t ∈ times, t < t0 + pol.windowMs) →
        (limitSeq pol key { windowStart := t0, counts := [] } times).1 =
          (List.range times.length).map
            (fun i => decide (i + 1 ≤ pol.maxRequests)))
    ∧ (∀ (pol : LimiterPolicy) (st : WindowState) (key : String) (now : Nat)
        (times : List Nat), 0 < pol.windowMs →
        st.windowStart + pol.windowMs ≤ now →
        (∀ t ∈ times,
          t < st.windowStart
              + pol.windowMs * ((now - st.windowStart) / pol.windowMs)
              + pol.windowMs) →
        (limitCheck pol st key now).1
            :: (limitSeq pol key (limitCheck pol st key now).2 times).1 =
          (List.range (times.length + 1)).map
            (fun i => decide (i + 1 ≤ pol.maxRequests))) := by
  refine ⟨by decide, ?_, ?_⟩
  · intro pol key t0 times h
    obtain ⟨h1, _, _⟩ :=
      limitSeq_in_window pol key times { windowStart := t0, counts := [] } h
    rw [h1]
    congr 1
    funext i
    rw [decide_eq_decide]
    simp only [getCount, List.find?_nil, Option.map_none', Option.getD_none]
    omega
  · intro pol st key now times hW hcross htimes
    obtain ⟨hre, _, _⟩ := limitCheck_reset pol st key now hW hcross
    rw [hre]
    dsimp only
    obtain ⟨h1, _, _⟩ := limitSeq_in_window pol key times
      { windowStart :=
          st.windowStart + pol.windowMs * ((now - st.windowStart) / pol.windowMs)
        counts := [(key, 1)] } htimes
    rw [h1]
    have hone : getCount [(key, 1)] key = 1 := by
      simp [getCount]
    rw [hone]
    rw [List.range_succ_eq_map, List.map_cons, List.map_map]
    congr 1
    congr 1
    funext i
    simp only [Function.comp_apply]
    rw [decide_eq_decide]
    omega

/-- Witness for C6: from a fresh window of the chat limiter, 31 identical
in-window requests from one key are admitted exactly up to the budget of
30 and the 31st is denied. -/
theorem rate_limit_policy_fixed_window_witness :
    (limitSeq (getRateLimiter "chat") "1.2.3.4"
        { windowStart := 0, counts := [] } (List.replicate 31 10)).1 =
      (List.range (List.replicate 31 10).length).map
        (fun i => decide (i + 1 ≤ (getRateLimiter "chat").maxRequests)) :=
  rate_limit_policy_fixed_window.2.1 (getRateLimiter "chat") "1.2.3.4" 0
    (List.replicate 31 10) (by decide)

/-- C8 counterexample: a chat request whose downstream call fails with
status 503 and detail `boom` is answered with status 500 — the available
downstream status is not preserved — and the response body carries the
downstream internal detail in a `details` field, which the claim says is
never included. -/
theorem chat_error_hides_status_and_leaks_details :
    (runChat sampleRin "PYKEY" freshWindow 5 reqChat
        (fun _ => Except.error
          { status := some 503, detail := some "boom",
            message := "socket hang up" })).1.statusCode = 500
    ∧ (runChat sampleRin "PYKEY" freshWindow 5 reqChat
        (fun _ => Except.error
          { status := some 503, detail := some "boom",
            message := "socket hang up" })).1.statusCode ≠ 503
    ∧ ("details", "boom") ∈
        (runChat sampleRin "PYKEY" freshWindow 5 reqChat
          (fun _ => Except.error
            { status := some 503, detail := some "boom",
              message := "socket hang up" })).1.body := by
  decide

/-- C8 amended: every downstream chat failure is answered with the fixed
status 500 — the downstream status code is never preserved — and a body
whose `message` is the generic text but whose `details` field exposes the
downstream error detail when present, else the transport error message. -/
theorem chat_downstream_failure_always_500 (rc : RinConfig) (pyKey : String)
    (rl : WindowState) (now : Nat) (req : RinRequest) (u : Payload)
    (e : DownstreamError)
    (hauth : authenticateRinToken rc now req.authorization = Except.ok u)
    (hallow : (limitCheck (getRateLimiter "chat") rl req.ip now).1 = true)
    (hsid : jsFalsy (jsonLookup req.body "sessionId") = false)
    (hmsg : jsFalsy (jsonLookup req.body "message") = false) :
    (runChat rc pyKey rl now req (fun _ => Except.error e)).1 =
      { statusCode := 500
        body := [("status", "error"), ("message", "Failed to process message"),
                 ("details", jsOr e.detail e.message)] } := by
  unfold runChat
  rw [hauth]
  dsimp only
  rw [if_pos hallow, hsid, hmsg]
  rfl

/-- Witness for the amended C8 at a concrete failing downstream call. -/
theorem chat_downstream_failure_always_500_witness :
    (runChat sampleRin "PYKEY" freshWindow 5 reqChat
        (fun _ => Except.error
          { status := some 502, detail := none,
            message := "timeout of 1000ms exceeded" })).1 =
      { statusCode := 500
        body := [("status", "error"), ("message", "Failed to process message"),
                 ("details", "timeout of 1000ms exceeded")] } :=
  chat_downstream_failure_always_500 sampleRin "PYKEY" freshWindow 5 reqChat
    tokenAlice.payload
    { status := some 502, detail := none, message := "timeout of 1000ms exceeded" }
    rfl rfl rfl rfl

/-- C9 counterexample: for a concrete authorized chat request the body
sent downstream is a fresh object with renamed keys that also embeds the
raw bearer token of the caller as `auth_token` — not the original body — and
the caller receives a wrapped `status`/`response` object, not the
downstream body verbatim. -/
theorem chat_forward_rewrites_body :
    (runChat sampleRin "PYKEY" freshWindow 5 reqChat
        (fun _ => Except.ok [("response", "yo"), ("extra", "x")])).2.2.2 =
      some { path := "/api/chat", xApiKey := "PYKEY"
             body := [("session_id", "s1"), ("message", "hi"),
                      ("auth_token", "rawA")] }
    ∧ Option.map OutboundChat.body
        (runChat sampleRin "PYKEY" freshWindow 5 reqChat
          (fun _ => Except.ok [("response", "yo"), ("extra", "x")])).2.2.2
        ≠ some reqChat.body
    ∧ (runChat sampleRin "PYKEY" freshWindow 5 reqChat
        (fun _ => Except.ok [("response", "yo"), ("extra", "x")])).1.body =
      [("status", "success"), ("response", "yo")]
    ∧ (runChat sampleRin "PYKEY" freshWindow 5 reqChat
        (fun _ => Except.ok [("response", "yo"), ("extra", "x")])).1.body ≠
      [("response", "yo"), ("extra", "x")] := by
  decide

/-- C9 amended: the chat route forwards a reconstructed body — the
`session_id` and `message` fields of the caller body plus the raw bearer
token of the caller itself under `auth_token` — with the service API key attached as
`X-API-Key`, and on downstream success answers 200 with a wrapper object
containing only `status` and the downstream `response` field. -/
theorem chat_forward_shape (rc : RinConfig) (pyKey : String)
    (rl : WindowState) (now : Nat) (req : RinRequest) (u : Payload)
    (sid msg : String)
    (ds : List (String × String) → Except DownstreamError (List (String × String)))
    (hauth : authenticateRinToken rc now req.authorization = Except.ok u)
    (hallow : (limitCheck (getRateLimiter "chat") rl req.ip now).1 = true)
    (hsid : jsonLookup req.body "sessionId" = some sid)
    (hsidne : (sid == "") = false)
    (hmsg : jsonLookup req.body "message" = some msg)
    (hmsgne : (msg == "") = false) :
    (runChat rc pyKey rl now req ds).2.2.2 =
      some { path := "/api/chat", xApiKey := pyKey
             body := [("session_id", sid), ("message", msg),
                      ("auth_token", req.rawToken)] }
    ∧ ∀ data, ds (chatForwardBody sid msg req.rawToken) = Except.ok data →
        (runChat rc pyKey rl now req ds).1 =
          { statusCode := 200
            body := [("status", "success")]
              ++ optField "response" (jsonLookup data "response") } := by
  unfold runChat
  rw [hauth]
  dsimp only
  rw [if_pos hallow, hsid, hmsg]
  simp only [jsFalsy, hsidne, hmsgne, Bool.or_self, Option.getD_some]
  constructor
  · cases hds : ds (chatForwardBody sid msg req.rawToken) with
    | ok data => rfl
    | error e => rfl
  · intro data hds
    rw [hds]
    rfl

/-- Witness for the amended C9 at a concrete request: the recorded
outbound request carries the rebuilt body with the bearer token. -/
theorem chat_forward_shape_witness :
    (runChat sampleRin "PYKEY" freshWindow 5 reqChat
        (fun _ => Except.ok [("response", "yo")])).2.2.2 =
      some { path := "/api/chat", xApiKey := "PYKEY"
             body := [("session_id", "s1"), ("message", "hi"),
                      ("auth_token", "rawA")] } :=
  (chat_forward_shape sampleRin "PYKEY" freshWindow 5 reqChat
    tokenAlice.payload "s1" "hi" (fun _ => Except.ok [("response", "yo")])
    rfl rfl rfl rfl rfl rfl).1

end Peak
